import Mathlib

/-!
# Operyx Kitchen Pro frontend — verification development

A shallow embedding of the data model, API client and workflow-page state
handlers of the Operyx Kitchen Pro frontend (a React/TypeScript dashboard),
together with theorems settling the specification's testable properties.

Modelling conventions:
* JavaScript numbers are modelled by `JSNum` (NaN, signed infinities, or an
  exact rational for the finite case).
* A settled `fetch` response is a record carrying the HTTP status, the status
  text, and the fields of the already-parsed JSON envelope that the client
  reads; `response.ok` is `200 ≤ status ≤ 299`.
* Asynchronous page handlers are embedded as pure state-transition functions:
  the outcome of each awaited network call is passed in as an `Except`
  argument, and the list of issued write/read requests is returned alongside
  the new page state.
-/

namespace Operyx

/-- A JavaScript number: NaN, ±Infinity, or a finite value (modelled as an
exact rational). -/
inductive JSNum where
  | nan
  | inf
  | ninf
  | finite (q : ℚ)
deriving Repr, DecidableEq

/-- A value that may be a JS number or a string (the input type
`number | string` of the formatting utilities). -/
inductive JSValue where
  | num (n : JSNum)
  | str (s : String)
deriving Repr, DecidableEq

/-- JavaScript `parseInt(s, 10)`: skip leading whitespace, read an optional
sign, then the longest prefix of decimal digits; `none` models `NaN` (no
digits found). -/
def jsParseInt (s : String) : Option Int :=
  let l := s.data.dropWhile Char.isWhitespace
  let signAndRest : Bool × List Char :=
    match l with
    | '-' :: rest => (true, rest)
    | '+' :: rest => (false, rest)
    | _ => (false, l)
  let ds := signAndRest.2.takeWhile Char.isDigit
  if ds.isEmpty then none
  else
    let n : Nat := ds.foldl (fun acc c => acc * 10 + (c.toNat - '0'.toNat)) 0
    some (if signAndRest.1 then -(n : Int) else (n : Int))

/-- JavaScript `parseFloat(s)`: skip leading whitespace, read an optional
sign, then either `Infinity` or the longest valid decimal-literal prefix
(digits, optional fraction, optional well-formed exponent); `JSNum.nan` when
no valid prefix exists. -/
def jsParseFloat (s : String) : JSNum :=
  let l := s.data.dropWhile Char.isWhitespace
  let signAndRest : Bool × List Char :=
    match l with
    | '-' :: rest => (true, rest)
    | '+' :: rest => (false, rest)
    | _ => (false, l)
  let neg := signAndRest.1
  let body := signAndRest.2
  if body.take 8 = "Infinity".data then
    if neg then JSNum.ninf else JSNum.inf
  else
    let intDigits := body.takeWhile Char.isDigit
    let afterInt := body.drop intDigits.length
    let fracDigits : List Char :=
      match afterInt with
      | '.' :: rest => rest.takeWhile Char.isDigit
      | _ => []
    let afterFrac :=
      match afterInt with
      | '.' :: rest => rest.drop fracDigits.length
      | _ => afterInt
    if intDigits.isEmpty ∧ fracDigits.isEmpty then JSNum.nan
    else
      let digitsVal (ds : List Char) : Nat :=
        ds.foldl (fun acc c => acc * 10 + (c.toNat - '0'.toNat)) 0
      let mantissa : ℚ :=
        (digitsVal intDigits : ℚ) +
          (digitsVal fracDigits : ℚ) / ((10 : ℚ) ^ fracDigits.length)
      let expVal : Int :=
        match afterFrac with
        | 'e' :: rest | 'E' :: rest =>
          let expSignAndRest : Bool × List Char :=
            match rest with
            | '-' :: r => (true, r)
            | '+' :: r => (false, r)
            | _ => (false, rest)
          let eds := expSignAndRest.2.takeWhile Char.isDigit
          if eds.isEmpty then 0
          else if expSignAndRest.1 then -(digitsVal eds : Int) else (digitsVal eds : Int)
        | _ => 0
      let scaled : ℚ :=
        if 0 ≤ expVal then mantissa * (10 : ℚ) ^ expVal.toNat
        else mantissa / (10 : ℚ) ^ (-expVal).toNat
      JSNum.finite (if neg then -scaled else scaled)

/-- Substring search on character lists: does `needle` occur contiguously in
`hay`? -/
def containsSub (hay needle : List Char) : Bool :=
  match hay with
  | [] => needle.isEmpty
  | _ :: rest => needle.isPrefixOf hay || containsSub rest needle

/-- JavaScript `haystack.includes(needle)`. -/
def jsIncludes (haystack needle : String) : Bool :=
  containsSub haystack.data needle.data

/-- Splitting a character list on a separator character (JS
`s.split(sep)` semantics for a one-character separator: the empty string
splits to `[""]`, and adjacent separators produce empty pieces). -/
def splitCharAux (sep : Char) : List Char → List Char → List (List Char)
  | [], acc => [acc.reverse]
  | c :: rest, acc =>
    if c = sep then acc.reverse :: splitCharAux sep rest []
    else splitCharAux sep rest (c :: acc)

/-- JavaScript `s.split(sep)` for a one-character separator. -/
def jsSplit (s : String) (sep : Char) : List String :=
  (splitCharAux sep s.data []).map String.mk

/-- JavaScript `s.trim()`: strip leading and trailing whitespace. -/
def jsTrim (s : String) : String :=
  String.mk
    (((s.data.dropWhile Char.isWhitespace).reverse.dropWhile
        Char.isWhitespace).reverse)

/-- JavaScript truthy-or (`a || b`) on an optional string: an absent or empty
string falls back to `b`. -/
def jsOrString (a : Option String) (b : String) : String :=
  match a with
  | some s => if s = "" then b else s
  | none => b

end Operyx

namespace Operyx

/-! ## Data model (src/types.ts) -/

/-- `Venue` as declared by the client (`src/types.ts`); note there is no
`status` field. -/
structure Venue where
  id : String
  tenantId : String
  name : String
  createdAt : String
deriving Repr, DecidableEq

/-- A venue record as actually delivered by the backend JSON: the client's
`Venue` shape plus a dynamic `status` field that may or may not be present
on the wire (it is absent from the declared type). -/
structure VenueRecord where
  id : String
  tenantId : String
  name : String
  createdAt : String
  status : Option String
deriving Repr, DecidableEq

/-- `MondayBrief` (payload kept opaque: the backend schema is rendered
verbatim). -/
structure MondayBrief where
  id : String
  tenantId : String
  venueId : String
  weekStartDate : String
  payload : String
  generatedBy : Option String
  createdAt : String
deriving Repr, DecidableEq

/-- `BudgetStatus`. -/
inductive BudgetStatus where
  | draft
  | confirmed
  | superseded
deriving Repr, DecidableEq

/-- `BudgetPayload` (the declared optional fields; extra ad-hoc keys are not
needed by any claim). -/
structure BudgetPayload where
  name : Option String := none
  description : Option String := none
  periodStart : Option String := none
  periodEnd : Option String := none
  revenue : Option JSNum := none
  costs : Option JSNum := none
  labour : Option JSNum := none
deriving Repr, DecidableEq

/-- `Budget`. -/
structure Budget where
  id : String
  tenantId : String
  venueId : String
  status : BudgetStatus
  payload : BudgetPayload
  createdBy : String
  confirmedBy : Option String
  createdAt : String
  confirmedAt : Option String
deriving Repr, DecidableEq

/-- `BudgetVersion`. -/
structure BudgetVersion where
  id : String
  budgetId : String
  tenantId : String
  version : Nat
  payload : BudgetPayload
  createdBy : String
  createdAt : String
deriving Repr, DecidableEq

/-- `LabourRole`. -/
structure LabourRole where
  role : String
  hours : JSNum
  rate : JSNum
deriving Repr, DecidableEq

/-- `LabourPlanPayload`. -/
structure LabourPlanPayload where
  name : Option String := none
  description : Option String := none
  periodStart : Option String := none
  periodEnd : Option String := none
  roles : Option (List LabourRole) := none
  totalHours : Option JSNum := none
  totalCost : Option JSNum := none
  headcount : Option JSNum := none
deriving Repr, DecidableEq

/-- `LabourPlan`. -/
structure LabourPlan where
  id : String
  tenantId : String
  venueId : String
  status : BudgetStatus
  payload : LabourPlanPayload
  createdBy : String
  confirmedBy : Option String
  createdAt : String
  confirmedAt : Option String
deriving Repr, DecidableEq

/-- `LabourPlanVersion`. -/
structure LabourPlanVersion where
  id : String
  labourPlanId : String
  tenantId : String
  version : Nat
  payload : LabourPlanPayload
  createdBy : String
  createdAt : String
deriving Repr, DecidableEq

/-- `CashSnapshotPayload`. -/
structure CashSnapshotPayload where
  revenue : Option JSNum := none
  costs : Option JSNum := none
  notes : Option String := none
deriving Repr, DecidableEq

/-- `CashSnapshot`. -/
structure CashSnapshot where
  id : String
  tenantId : String
  venueId : String
  weekStartDate : String
  isCorrection : Bool
  correctsSnapshotId : Option String
  correctionReason : Option String
  payload : CashSnapshotPayload
  createdBy : String
  createdAt : String
deriving Repr, DecidableEq

/-- `EvidenceSource`. -/
inductive EvidenceSource where
  | rota
  | pos
  | payroll
  | other
deriving Repr, DecidableEq

/-- `EvidenceType`. -/
inductive EvidenceType where
  | image
  | csv
deriving Repr, DecidableEq

/-- `Evidence`. -/
structure Evidence where
  id : String
  tenantId : String
  venueId : String
  type : EvidenceType
  source : EvidenceSource
  fileName : String
  mimeType : String
  uploadedBy : String
  createdAt : String
deriving Repr, DecidableEq

/-- `CandidateStatus`. -/
inductive CandidateStatus where
  | pending
  | confirmed
  | rejected
deriving Repr, DecidableEq

/-- `EvidenceCandidate` (extracted payload kept opaque). -/
structure EvidenceCandidate where
  id : String
  evidenceId : String
  tenantId : String
  status : CandidateStatus
  payload : String
  reviewedBy : Option String
  reviewedAt : Option String
  rejectionReason : Option String
  canonicalRecordId : Option String
  createdAt : String
deriving Repr, DecidableEq

/-- A browser `File` (only the metadata the page state holds). -/
structure JSFile where
  name : String
  size : Nat
deriving Repr, DecidableEq

end Operyx

namespace Operyx

/-! ## API client: single-record GET endpoints (src/api/client.ts)

Each function receives the settled `fetch` response: HTTP status, status
text, and the relevant field of the parsed JSON envelope (`record`, which is
`none` when the key is absent or `null`).  The JSON body's `error` field is
also carried so that theorems can speak about whether it is used. -/

/-- A settled response to a single-record GET, with the parsed JSON envelope
field of type `ρ`. -/
structure FetchResponse (ρ : Type) where
  status : Nat
  statusText : String
  errorField : Option String := none
  record : Option ρ := none
deriving Repr, DecidableEq

/-- `response.ok`: status in the 2xx range. -/
def FetchResponse.ok {ρ : Type} (r : FetchResponse ρ) : Bool :=
  decide (200 ≤ r.status ∧ r.status ≤ 299)

/-- `getMondayBrief` (response-processing part): 404 ↦ `null`, other non-2xx
↦ throw `Failed to fetch Monday brief: <statusText>`, 2xx ↦ `data.brief || null`. -/
def getMondayBrief (r : FetchResponse MondayBrief) : Except String (Option MondayBrief) :=
  if ¬ r.ok then
    if r.status = 404 then .ok none
    else .error ("Failed to fetch Monday brief: " ++ r.statusText)
  else .ok r.record

/-- `getBudget`. -/
def getBudget (r : FetchResponse Budget) : Except String (Option Budget) :=
  if ¬ r.ok then
    if r.status = 404 then .ok none
    else .error ("Failed to fetch budget: " ++ r.statusText)
  else .ok r.record

/-- `getConfirmedBudget`. -/
def getConfirmedBudget (r : FetchResponse Budget) : Except String (Option Budget) :=
  if ¬ r.ok then
    if r.status = 404 then .ok none
    else .error ("Failed to fetch confirmed budget: " ++ r.statusText)
  else .ok r.record

/-- `getLabourPlan`. -/
def getLabourPlan (r : FetchResponse LabourPlan) : Except String (Option LabourPlan) :=
  if ¬ r.ok then
    if r.status = 404 then .ok none
    else .error ("Failed to fetch labour plan: " ++ r.statusText)
  else .ok r.record

/-- `getConfirmedLabourPlan`. -/
def getConfirmedLabourPlan (r : FetchResponse LabourPlan) : Except String (Option LabourPlan) :=
  if ¬ r.ok then
    if r.status = 404 then .ok none
    else .error ("Failed to fetch confirmed labour plan: " ++ r.statusText)
  else .ok r.record

/-- `getCashSnapshotByWeek`. -/
def getCashSnapshotByWeek (r : FetchResponse CashSnapshot) : Except String (Option CashSnapshot) :=
  if ¬ r.ok then
    if r.status = 404 then .ok none
    else .error ("Failed to fetch cash snapshot: " ++ r.statusText)
  else .ok r.record

/-- `getEvidence`. -/
def getEvidence (r : FetchResponse Evidence) : Except String (Option Evidence) :=
  if ¬ r.ok then
    if r.status = 404 then .ok none
    else .error ("Failed to fetch evidence: " ++ r.statusText)
  else .ok r.record

end Operyx

namespace Operyx

/-! ## API client: `uploadEvidence` (src/api/client.ts, lines 508–542)

`uploadEvidence` reads the `content-type` header of the settled response
before any JSON parsing; the response record therefore carries the header
(`contentType`), the raw body text, and the parsed JSON fields that are read
on the two JSON paths. -/

/-- The settled response to the evidence upload POST. -/
structure UploadResponse where
  status : Nat
  statusText : String
  contentType : Option String := none
  bodyText : String := ""
  errorField : Option String := none
  evidence : Option Evidence := none
deriving Repr, DecidableEq

/-- `response.ok` for an upload response. -/
def UploadResponse.ok (r : UploadResponse) : Bool :=
  decide (200 ≤ r.status ∧ r.status ≤ 299)

/-- The diagnostic raised when the response is not JSON. -/
def nonJsonUploadMessage (status : Nat) : String :=
  "Server returned non-JSON response (" ++ toString status ++
    "). This may indicate an authentication or routing issue."

/-- The upload path's content-type test: the header is present and includes
`application/json` (the negation of `!contentType ||
!contentType.includes("application/json")`). -/
def isJsonContentType : Option String → Bool
  | none => false
  | some ct => jsIncludes ct "application/json"

/-- `uploadEvidence` (response-processing part): first the content-type
check (absent header, or header not including `application/json`, raises the
diagnostic regardless of status); then the non-2xx check (backend `error`
field, falling back to the status text); then the parsed success body. -/
def uploadEvidence (r : UploadResponse) : Except String Evidence :=
  if ¬ isJsonContentType r.contentType then
    .error (nonJsonUploadMessage r.status)
  else if ¬ r.ok then
    .error (jsOrString r.errorField ("Failed to upload evidence: " ++ r.statusText))
  else
    match r.evidence with
    | some e => .ok e
    | none => .error "Failed to upload evidence: missing body"

end Operyx

namespace Operyx

/-! ## Layout venue loading (src/components/Layout.tsx, lines 71–83) -/

/-- The filter applied by `loadVenues` in `Layout`:
`data.filter((v) => v.status === "active")`.  A record whose dynamic
`status` field is absent compares unequal to `"active"`. -/
def loadVenuesFilter (data : List VenueRecord) : List VenueRecord :=
  data.filter fun v =>
    match v.status with
    | some s => decide (s = "active")
    | none => false

end Operyx

namespace Operyx

/-! ## Calendar model for the JS `Date` engine

`Date.UTC(year, month, day)` is modelled exactly: the two-digit-year rule
(0–99 ↦ 1900–1999), month normalisation with rollover into adjacent years,
day offsets with rollover across month boundaries, and the `TimeClip` range
limit of ±8.64e15 milliseconds.  The civil-calendar day arithmetic is the
standard proleptic-Gregorian days-from-civil / civil-from-days pair. -/

/-- Days since 1970-01-01 of the Gregorian date `y-m-d` (months 1–12). -/
def daysFromCivil (y m d : Int) : Int :=
  let y' := y - (if m ≤ 2 then 1 else 0)
  let era := y'.fdiv 400
  let yoe := y' - era * 400
  let doy := ((153 * (m + (if 2 < m then -3 else 9)) + 2).fdiv 5) + d - 1
  let doe := yoe * 365 + yoe.fdiv 4 - yoe.fdiv 100 + doy
  era * 146097 + doe - 719468

/-- The Gregorian date `(y, m, d)` (months 1–12) of a count of days since
1970-01-01. -/
def civilFromDays (z : Int) : Int × Int × Int :=
  let z' := z + 719468
  let era := z'.fdiv 146097
  let doe := z' - era * 146097
  let yoe := (doe - doe.fdiv 1460 + doe.fdiv 36524 - doe.fdiv 146096).fdiv 365
  let y := yoe + era * 400
  let doy := doe - (365 * yoe + yoe.fdiv 4 - yoe.fdiv 100)
  let mp := (5 * doy + 2).fdiv 153
  let d := doy - (153 * mp + 2).fdiv 5 + 1
  let m := mp + (if mp < 10 then 3 else -9)
  (y + (if m ≤ 2 then 1 else 0), m, d)

/-- Milliseconds per UTC day. -/
def msPerDay : Int := 86400000

/-- `TimeClip`'s bound: ±8.64e15 ms (±100 000 000 days around the epoch). -/
def maxTimeValue : Int := 8640000000000000

/-- The (pre-clip) millisecond time value of `Date.UTC(year, month, day)`.
Years 0–99 are interpreted as 1900–1999; out-of-range months and days roll
over through the calendar. -/
def utcTimeValue (year month day : Int) : Int :=
  let yr := if 0 ≤ year ∧ year ≤ 99 then year + 1900 else year
  let ym := yr + month.fdiv 12
  let mn := month.emod 12
  (daysFromCivil ym (mn + 1) 1 + (day - 1)) * msPerDay

/-- `Date.UTC(year, month, day)` as a millisecond timestamp; `none` models
the `NaN` produced by `TimeClip` when the result is out of range. -/
def dateUTC (year month day : Int) : Option Int :=
  if (utcTimeValue year month day).natAbs ≤ maxTimeValue.natAbs then
    some (utcTimeValue year month day)
  else none

/-- The UTC calendar date `(year, month 1–12, day)` of a timestamp, as read
back through `getUTCFullYear`/`getUTCMonth`/`getUTCDate`. -/
def utcCivilDate (t : Int) : Int × Int × Int :=
  civilFromDays (t.fdiv msPerDay)

/-- `parseUKDate` (src/utils/format.ts): split on `/`; exactly three
segments, each of which must `parseInt` to a number; month is 0-indexed;
the result is `new Date(Date.UTC(year, month, day))`, `null` when the
timestamp is `NaN`. -/
def parseUKDate (dateString : String) : Option Int :=
  match jsSplit dateString '/' with
  | [p₀, p₁, p₂] =>
    match jsParseInt p₀, jsParseInt p₁, jsParseInt p₂ with
    | some day, some m, some year => dateUTC year (m - 1) day
    | _, _, _ => none
  | _ => none

end Operyx

namespace Operyx

/-! ## Currency formatting (src/utils/format.ts)

`formatCurrency` delegates to `Number.prototype.toLocaleString("en-GB",
{ minimumFractionDigits: 2, maximumFractionDigits: 2 })`; the en-GB
rendering of a finite value is modelled exactly: round half-away-from-zero
to two fraction digits, group the integer part in threes with commas, and a
leading minus sign for negative inputs. -/

/-- The character of a single decimal digit. -/
def digitChar (k : Nat) : Char := Char.ofNat ('0'.toNat + k)

/-- Fuel-driven digit extraction (structural recursion on the fuel, so that
it evaluates inside the kernel); the fuel is an upper bound on `n`. -/
def natDigitsRevFuel : Nat → Nat → List Char
  | 0, _ => []
  | fuel + 1, n =>
    if n < 10 then [digitChar n]
    else digitChar (n % 10) :: natDigitsRevFuel fuel (n / 10)

/-- The decimal digits of `n`, least-significant first. -/
def natDigitsRev (n : Nat) : List Char := natDigitsRevFuel (n + 1) n

/-- Insert en-GB thousands separators into a least-significant-first digit
list. -/
def groupRev : List Char → List Char
  | [] => []
  | [a] => [a]
  | [a, b] => [a, b]
  | [a, b, c] => [a, b, c]
  | a :: b :: c :: rest => a :: b :: c :: ',' :: groupRev rest

/-- `|q| * 100` rounded half-away-from-zero to an integer (the `halfExpand`
rounding mode of `Intl.NumberFormat`): with `a / d` the reduced fraction
`|q|`, this is `⌊100 a / d + 1/2⌋ = (200 a + d) / (2 d)`, written with
natural-number arithmetic so it evaluates inside the kernel. -/
def roundedHundredths (q : ℚ) : Nat :=
  (200 * q.num.natAbs + q.den) / (2 * q.den)

/-- The character list of the en-GB rendering of a finite value with exactly
two fraction digits. -/
def enGBChars (q : ℚ) : List Char :=
  let n := roundedHundredths q
  let fracTens := (n % 100) / 10
  let fracOnes := n % 10
  (if q < 0 then ['-'] else []) ++
    (groupRev (natDigitsRev (n / 100))).reverse ++
    '.' :: [digitChar fracTens, digitChar fracOnes]

/-- `toLocaleString("en-GB", { minimumFractionDigits: 2,
maximumFractionDigits: 2 })`. -/
def toLocaleStringEnGB2 : JSNum → String
  | JSNum.nan => "NaN"
  | JSNum.inf => "∞"
  | JSNum.ninf => "-∞"
  | JSNum.finite q => String.mk (enGBChars q)

/-- The `number | string` coercion at the head of `formatCurrency` and
`formatNumber`: strings go through `parseFloat`. -/
def jsToNumber : JSValue → JSNum
  | JSValue.num n => n
  | JSValue.str s => jsParseFloat s

/-- `formatCurrency` (src/utils/format.ts, lines 68–74). -/
def formatCurrency (value : JSValue) : String :=
  let num := jsToNumber value
  if num = JSNum.nan then "£0.00"
  else "£" ++ toLocaleStringEnGB2 num

/-- Checks that a reversed character list is a comma-grouped digit string:
groups of exactly three digits (least-significant first) separated by
commas, with a final (most-significant) group of one to three digits. -/
def ukGroupedRevCheck : List Char → Bool
  | [] => false
  | [a] => a.isDigit
  | [a, b] => a.isDigit && b.isDigit
  | [a, b, c] => a.isDigit && b.isDigit && c.isDigit
  | a :: b :: c :: d :: rest =>
    a.isDigit && b.isDigit && c.isDigit && (d == ',') && ukGroupedRevCheck rest

/-- Checks `<grouped digits>.<digit><digit>` by reading the character list
from the end: two digits, then the decimal point, then a comma-grouped
integer part (which, being digits and commas only, contains no second
point). -/
def amountShape (l : List Char) : Bool :=
  match l.reverse with
  | d₂ :: d₁ :: p :: restRev =>
    d₁.isDigit && d₂.isDigit && (p == '.') && ukGroupedRevCheck restRev
  | _ => false

/-- Checks the full claimed shape of a `formatCurrency` result: a pound
sign, an optional minus sign, a comma-grouped integer part, and exactly two
decimal places. -/
def currencyShape (s : String) : Bool :=
  let l := s.data
  let afterPound := if l.head? = some '£' then l.tail else []
  let body := if afterPound.head? = some '-' then afterPound.tail else afterPound
  amountShape body

end Operyx

namespace Operyx

/-! ## Workflow pages: state and write handlers

Each page's React state is a record; each async handler becomes a pure
function from the current state (plus the URL-held selection and the
outcome of every awaited network call) to the new state together with the
list of network requests it issued, in order.  `setX` calls become field
updates; the `finally { setSubmitting(false) }` is reflected in every
branch. -/

/-- The placeholder operator identity used by every workflow page. -/
def currentUserId : String := "operator-user"

/-- A network request issued by a workflow-page handler, with its arguments
as passed to the API client. -/
inductive ApiCall where
  | createBudget (tenantId venueId : String) (payload : BudgetPayload) (createdBy : String)
  | confirmBudget (tenantId budgetId : String) (payload : BudgetPayload) (confirmedBy : String)
  | getBudgets (tenantId venueId : String) (status : Option BudgetStatus)
  | createLabourPlan (tenantId venueId : String) (payload : LabourPlanPayload) (createdBy : String)
  | confirmLabourPlan (tenantId labourPlanId : String) (payload : LabourPlanPayload) (confirmedBy : String)
  | getLabourPlans (tenantId venueId : String) (status : Option BudgetStatus)
  | createCashSnapshot (tenantId venueId weekStartDate : String) (payload : CashSnapshotPayload) (createdBy : String)
  | createCorrectionSnapshot (tenantId snapshotId weekStartDate : String) (payload : CashSnapshotPayload) (createdBy : String) (reason : String)
  | uploadEvidence (tenantId venueId : String) (file : JSFile) (source : EvidenceSource) (uploadedBy : String)
  | confirmCandidate (tenantId candidateId reviewedBy : String)
  | rejectCandidate (tenantId candidateId reviewedBy : String) (reason : String)
  | getCandidatesByEvidence (tenantId evidenceId : String)
  | getPendingCandidates (tenantId : String)
deriving Repr, DecidableEq

/-! ### Budget workflow page (src/pages/BudgetWorkflowPage.tsx) -/

/-- The state held by `BudgetWorkflowPage`. -/
structure BudgetPageState where
  budgets : List Budget
  selectedBudget : Option Budget
  versions : List BudgetVersion
  loading : Bool
  error : Option String
  statusFilter : Option BudgetStatus
  showCreateForm : Bool
  formData : BudgetPayload
  submitting : Bool
deriving Repr, DecidableEq

/-- The blank create-form payload the Budget page resets to. -/
def emptyBudgetForm : BudgetPayload :=
  { name := some "", description := some "", periodStart := some "",
    periodEnd := some "",
    revenue := some (JSNum.finite 0), costs := some (JSNum.finite 0),
    labour := some (JSNum.finite 0) }

/-- The JSON body returned by the budget create/confirm endpoints. -/
structure BudgetMutationResult where
  budget : Budget
  version : BudgetVersion
deriving Repr, DecidableEq

/-- `handleCreateBudget` (lines 106–130): guard on an empty venue, then a
`createBudget` request; on success prepend the returned budget and reset the
form; on failure set the error message. -/
def handleCreateBudget (tenantId venueId : String) (s : BudgetPageState)
    (outcome : Except String BudgetMutationResult) :
    BudgetPageState × List ApiCall :=
  if venueId = "" then (s, [])
  else
    let s₁ := { s with submitting := true, error := none }
    let call := ApiCall.createBudget tenantId venueId s.formData currentUserId
    match outcome with
    | .ok result =>
      ({ s₁ with budgets := result.budget :: s₁.budgets,
                 showCreateForm := false,
                 formData := emptyBudgetForm,
                 submitting := false }, [call])
    | .error msg =>
      ({ s₁ with error := some msg, submitting := false }, [call])

/-- `handleConfirmBudget` (lines 132–153): no guard; a `confirmBudget`
request for the card's budget, then on success a re-fetch of the list and
selection of the returned budget. -/
def handleConfirmBudget (tenantId venueId : String) (s : BudgetPageState)
    (budget : Budget)
    (confirmOutcome : Except String BudgetMutationResult)
    (refetchOutcome : Except String (List Budget)) :
    BudgetPageState × List ApiCall :=
  let s₁ := { s with submitting := true, error := none }
  let confirmCall := ApiCall.confirmBudget tenantId budget.id budget.payload currentUserId
  match confirmOutcome with
  | .error msg =>
    ({ s₁ with error := some msg, submitting := false }, [confirmCall])
  | .ok result =>
    let refetchCall := ApiCall.getBudgets tenantId venueId s.statusFilter
    match refetchOutcome with
    | .error msg =>
      ({ s₁ with error := some msg, submitting := false },
       [confirmCall, refetchCall])
    | .ok data =>
      ({ s₁ with budgets := data,
                 selectedBudget := some result.budget,
                 submitting := false },
       [confirmCall, refetchCall])

/-! ### Labour workflow page (src/pages/LabourWorkflowPage.tsx) -/

/-- The state held by `LabourWorkflowPage`. -/
structure LabourPageState where
  labourPlans : List LabourPlan
  selectedPlan : Option LabourPlan
  versions : List LabourPlanVersion
  loading : Bool
  error : Option String
  statusFilter : Option BudgetStatus
  showCreateForm : Bool
  formData : LabourPlanPayload
  submitting : Bool
deriving Repr, DecidableEq

/-- The blank create-form payload the Labour page resets to. -/
def emptyLabourForm : LabourPlanPayload :=
  { name := some "", description := some "", periodStart := some "",
    periodEnd := some "", roles := some [],
    totalHours := some (JSNum.finite 0), totalCost := some (JSNum.finite 0),
    headcount := some (JSNum.finite 0) }

/-- The JSON body returned by the labour-plan create/confirm endpoints. -/
structure LabourMutationResult where
  labourPlan : LabourPlan
  version : LabourPlanVersion
deriving Repr, DecidableEq

/-- `handleCreateLabourPlan` (lines 136–166). -/
def handleCreateLabourPlan (tenantId venueId : String) (s : LabourPageState)
    (outcome : Except String LabourMutationResult) :
    LabourPageState × List ApiCall :=
  if venueId = "" then (s, [])
  else
    let s₁ := { s with submitting := true, error := none }
    let call := ApiCall.createLabourPlan tenantId venueId s.formData currentUserId
    match outcome with
    | .ok result =>
      ({ s₁ with labourPlans := result.labourPlan :: s₁.labourPlans,
                 showCreateForm := false,
                 formData := emptyLabourForm,
                 submitting := false }, [call])
    | .error msg =>
      ({ s₁ with error := some msg, submitting := false }, [call])

/-- `handleConfirmLabourPlan` (lines 168–189). -/
def handleConfirmLabourPlan (tenantId venueId : String) (s : LabourPageState)
    (plan : LabourPlan)
    (confirmOutcome : Except String LabourMutationResult)
    (refetchOutcome : Except String (List LabourPlan)) :
    LabourPageState × List ApiCall :=
  let s₁ := { s with submitting := true, error := none }
  let confirmCall := ApiCall.confirmLabourPlan tenantId plan.id plan.payload currentUserId
  match confirmOutcome with
  | .error msg =>
    ({ s₁ with error := some msg, submitting := false }, [confirmCall])
  | .ok result =>
    let refetchCall := ApiCall.getLabourPlans tenantId venueId s.statusFilter
    match refetchOutcome with
    | .error msg =>
      ({ s₁ with error := some msg, submitting := false },
       [confirmCall, refetchCall])
    | .ok data =>
      ({ s₁ with labourPlans := data,
                 selectedPlan := some result.labourPlan,
                 submitting := false },
       [confirmCall, refetchCall])

/-! ### Cash workflow page (src/pages/CashWorkflowPage.tsx) -/

/-- The state held by `CashWorkflowPage`. -/
structure CashPageState where
  snapshots : List CashSnapshot
  weekHistory : List CashSnapshot
  loading : Bool
  error : Option String
  showCreateForm : Bool
  formData : CashSnapshotPayload
  submitting : Bool
  showCorrectionForm : Bool
  correctionTarget : Option CashSnapshot
  correctionData : CashSnapshotPayload
  correctionReason : String
deriving Repr, DecidableEq

/-- The blank snapshot form the Cash page resets to. -/
def emptyCashForm : CashSnapshotPayload :=
  { revenue := some (JSNum.finite 0), costs := some (JSNum.finite 0),
    notes := some "" }

/-- The JSON body returned by the snapshot create/correct endpoints. -/
structure SnapshotResult where
  snapshot : CashSnapshot
deriving Repr, DecidableEq

/-- `handleCreateSnapshot` (lines 121–144): guard on an empty venue; on
success prepend the returned snapshot to both the full list and the
week-scoped history. -/
def handleCreateSnapshot (tenantId venueId selectedWeek : String)
    (s : CashPageState) (outcome : Except String SnapshotResult) :
    CashPageState × List ApiCall :=
  if venueId = "" then (s, [])
  else
    let s₁ := { s with submitting := true, error := none }
    let call := ApiCall.createCashSnapshot tenantId venueId selectedWeek s.formData currentUserId
    match outcome with
    | .ok result =>
      ({ s₁ with snapshots := result.snapshot :: s₁.snapshots,
                 weekHistory := result.snapshot :: s₁.weekHistory,
                 showCreateForm := false,
                 formData := emptyCashForm,
                 submitting := false }, [call])
    | .error msg =>
      ({ s₁ with error := some msg, submitting := false }, [call])

/-- `handleSubmitCorrection` (lines 157–182): guard
`if (!correctionTarget || !correctionReason.trim()) return;`, then a
`createCorrectionSnapshot` request; on success prepend to both lists and
close the correction form. -/
def handleSubmitCorrection (tenantId selectedWeek : String)
    (s : CashPageState) (outcome : Except String SnapshotResult) :
    CashPageState × List ApiCall :=
  match s.correctionTarget with
  | none => (s, [])
  | some target =>
    if jsTrim s.correctionReason = "" then (s, [])
    else
      let s₁ := { s with submitting := true, error := none }
      let call := ApiCall.createCorrectionSnapshot tenantId target.id selectedWeek
        s.correctionData currentUserId s.correctionReason
      match outcome with
      | .ok result =>
        ({ s₁ with snapshots := result.snapshot :: s₁.snapshots,
                   weekHistory := result.snapshot :: s₁.weekHistory,
                   showCorrectionForm := false,
                   correctionTarget := none,
                   correctionReason := "",
                   submitting := false }, [call])
      | .error msg =>
        ({ s₁ with error := some msg, submitting := false }, [call])

/-! ### Evidence workflow page (src/pages/EvidenceWorkflowPage.tsx) -/

/-- The state held by `EvidenceWorkflowPage`. -/
structure EvidencePageState where
  evidenceList : List Evidence
  selectedEvidence : Option Evidence
  candidates : List EvidenceCandidate
  pendingCandidates : List EvidenceCandidate
  loading : Bool
  error : Option String
  sourceFilter : Option EvidenceSource
  showUploadForm : Bool
  uploadSource : EvidenceSource
  selectedFile : Option JSFile
  submitting : Bool
  showRejectForm : Bool
  rejectTarget : Option EvidenceCandidate
  rejectReason : String
deriving Repr, DecidableEq

/-- The JSON body returned by the upload endpoint. -/
structure UploadResult where
  evidence : Evidence
deriving Repr, DecidableEq

/-- `handleUpload` (lines 738–764): guard
`if (!venueId || !selectedFile) return;`; on success prepend the returned
evidence and reset the upload form. -/
def handleUpload (tenantId venueId : String) (s : EvidencePageState)
    (outcome : Except String UploadResult) :
    EvidencePageState × List ApiCall :=
  if venueId = "" then (s, [])
  else
    match s.selectedFile with
    | none => (s, [])
    | some file =>
      let s₁ := { s with submitting := true, error := none }
      let call := ApiCall.uploadEvidence tenantId venueId file s.uploadSource currentUserId
      match outcome with
      | .ok result =>
        ({ s₁ with evidenceList := result.evidence :: s₁.evidenceList,
                   showUploadForm := false,
                   selectedFile := none,
                   uploadSource := EvidenceSource.other,
                   submitting := false }, [call])
      | .error msg =>
        ({ s₁ with error := some msg, submitting := false }, [call])

/-- The shared post-mutation refresh of the candidate lists (the tail of
`handleConfirm` and `handleReject`): refresh the selected evidence's
candidates when one is selected, then the tenant-wide pending list; a
failure in either leaves the remaining updates unapplied and surfaces the
error. -/
def refreshCandidates (tenantId : String) (s : EvidencePageState)
    (candidatesOutcome : Except String (List EvidenceCandidate))
    (pendingOutcome : Except String (List EvidenceCandidate))
    (onSuccess : EvidencePageState → EvidencePageState) :
    EvidencePageState × List ApiCall :=
  match s.selectedEvidence with
  | some ev =>
    match candidatesOutcome with
    | .error msg =>
      ({ s with error := some msg, submitting := false },
       [ApiCall.getCandidatesByEvidence tenantId ev.id])
    | .ok data =>
      let s₂ := { s with candidates := data }
      match pendingOutcome with
      | .error msg =>
        ({ s₂ with error := some msg, submitting := false },
         [ApiCall.getCandidatesByEvidence tenantId ev.id,
          ApiCall.getPendingCandidates tenantId])
      | .ok pending =>
        (onSuccess { s₂ with pendingCandidates := pending, submitting := false },
         [ApiCall.getCandidatesByEvidence tenantId ev.id,
          ApiCall.getPendingCandidates tenantId])
  | none =>
    match pendingOutcome with
    | .error msg =>
      ({ s with error := some msg, submitting := false },
       [ApiCall.getPendingCandidates tenantId])
    | .ok pending =>
      (onSuccess { s with pendingCandidates := pending, submitting := false },
       [ApiCall.getPendingCandidates tenantId])

/-- `handleConfirm` (lines 788–807): no guard; a `confirmCandidate` request,
then the candidate-list refreshes. -/
def handleConfirm (tenantId : String) (s : EvidencePageState)
    (candidate : EvidenceCandidate)
    (confirmOutcome : Except String Unit)
    (candidatesOutcome : Except String (List EvidenceCandidate))
    (pendingOutcome : Except String (List EvidenceCandidate)) :
    EvidencePageState × List ApiCall :=
  let s₁ := { s with submitting := true, error := none }
  let confirmCall := ApiCall.confirmCandidate tenantId candidate.id currentUserId
  match confirmOutcome with
  | .error msg =>
    ({ s₁ with error := some msg, submitting := false }, [confirmCall])
  | .ok _ =>
    let (s₂, calls) := refreshCandidates tenantId s₁ candidatesOutcome pendingOutcome id
    (s₂, confirmCall :: calls)

/-- `handleReject` (lines 815–844): guard
`if (!rejectTarget || !rejectReason.trim()) return;`, then a
`rejectCandidate` request, the candidate-list refreshes, and on full success
the rejection form is closed. -/
def handleReject (tenantId : String) (s : EvidencePageState)
    (rejectOutcome : Except String Unit)
    (candidatesOutcome : Except String (List EvidenceCandidate))
    (pendingOutcome : Except String (List EvidenceCandidate)) :
    EvidencePageState × List ApiCall :=
  match s.rejectTarget with
  | none => (s, [])
  | some target =>
    if jsTrim s.rejectReason = "" then (s, [])
    else
      let s₁ := { s with submitting := true, error := none }
      let rejectCall := ApiCall.rejectCandidate tenantId target.id currentUserId s.rejectReason
      match rejectOutcome with
      | .error msg =>
        ({ s₁ with error := some msg, submitting := false }, [rejectCall])
      | .ok _ =>
        let (s₂, calls) := refreshCandidates tenantId s₁ candidatesOutcome pendingOutcome
          (fun st => { st with showRejectForm := false, rejectTarget := none, rejectReason := "" })
        (s₂, rejectCall :: calls)

end Operyx

namespace Operyx

/-! ## Concrete fixtures

Sample records and page states used to instantiate the theorems below on
concrete inputs. -/

/-- A draft budget. -/
def sampleBudget : Budget :=
  { id := "budget-1", tenantId := "tenant-1", venueId := "venue-1",
    status := BudgetStatus.draft,
    payload := { name := some "Q1 budget", revenue := some (JSNum.finite 1000) },
    createdBy := currentUserId, confirmedBy := none,
    createdAt := "2026-01-01T00:00:00Z", confirmedAt := none }

/-- A budget version record. -/
def sampleBudgetVersion : BudgetVersion :=
  { id := "ver-1", budgetId := "budget-1", tenantId := "tenant-1",
    version := 1, payload := {}, createdBy := currentUserId,
    createdAt := "2026-01-01T00:00:00Z" }

/-- A Budget page state in which no budget is selected. -/
def sampleBudgetState : BudgetPageState :=
  { budgets := [sampleBudget], selectedBudget := none, versions := [],
    loading := false, error := none, statusFilter := none,
    showCreateForm := true, formData := {}, submitting := false }

/-- A draft labour plan. -/
def sampleLabourPlan : LabourPlan :=
  { id := "plan-1", tenantId := "tenant-1", venueId := "venue-1",
    status := BudgetStatus.draft, payload := {},
    createdBy := currentUserId, confirmedBy := none,
    createdAt := "2026-01-01T00:00:00Z", confirmedAt := none }

/-- A labour plan version record. -/
def sampleLabourVersion : LabourPlanVersion :=
  { id := "lver-1", labourPlanId := "plan-1", tenantId := "tenant-1",
    version := 1, payload := {}, createdBy := currentUserId,
    createdAt := "2026-01-01T00:00:00Z" }

/-- A Labour page state. -/
def sampleLabourState : LabourPageState :=
  { labourPlans := [sampleLabourPlan], selectedPlan := none, versions := [],
    loading := false, error := none, statusFilter := none,
    showCreateForm := true, formData := {}, submitting := false }

/-- An original cash snapshot. -/
def sampleSnapshot : CashSnapshot :=
  { id := "snap-1", tenantId := "tenant-1", venueId := "venue-1",
    weekStartDate := "2026-01-26", isCorrection := false,
    correctsSnapshotId := none, correctionReason := none,
    payload := { revenue := some (JSNum.finite 500) },
    createdBy := currentUserId, createdAt := "2026-01-26T09:00:00Z" }

/-- A Cash page state with a correction in progress and a non-blank
reason. -/
def sampleCashState : CashPageState :=
  { snapshots := [sampleSnapshot], weekHistory := [sampleSnapshot],
    loading := false, error := none, showCreateForm := false,
    formData := {}, submitting := false, showCorrectionForm := true,
    correctionTarget := some sampleSnapshot, correctionData := {},
    correctionReason := "till totals were misread" }

/-- An uploaded file. -/
def sampleFile : JSFile := { name := "rota.csv", size := 2048 }

/-- An evidence record. -/
def sampleEvidence : Evidence :=
  { id := "ev-1", tenantId := "tenant-1", venueId := "venue-1",
    type := EvidenceType.csv, source := EvidenceSource.rota,
    fileName := "rota.csv", mimeType := "text/csv",
    uploadedBy := currentUserId, createdAt := "2026-01-26T09:00:00Z" }

/-- A pending extraction candidate. -/
def sampleCandidate : EvidenceCandidate :=
  { id := "cand-1", evidenceId := "ev-1", tenantId := "tenant-1",
    status := CandidateStatus.pending, payload := "{}",
    reviewedBy := none, reviewedAt := none, rejectionReason := none,
    canonicalRecordId := none, createdAt := "2026-01-26T09:05:00Z" }

/-- An Evidence page state with a rejection in progress and a non-blank
reason. -/
def sampleEvidenceState : EvidencePageState :=
  { evidenceList := [sampleEvidence], selectedEvidence := some sampleEvidence,
    candidates := [sampleCandidate], pendingCandidates := [sampleCandidate],
    loading := false, error := none, sourceFilter := none,
    showUploadForm := true, uploadSource := EvidenceSource.rota,
    selectedFile := some sampleFile, submitting := false,
    showRejectForm := true, rejectTarget := some sampleCandidate,
    rejectReason := "illegible scan" }

end Operyx

namespace Operyx

/-! ## Theorems settling the claims -/

/-- Claim C9: the Layout's venue selector keeps exactly those fetched venue
records whose dynamic `status` field is strictly equal to `"active"`; a
record lacking the field is silently excluded. -/
theorem c9_venue_selector_filters_active :
    (∀ (data : List VenueRecord) (v : VenueRecord),
      v ∈ loadVenuesFilter data ↔ v ∈ data ∧ v.status = some "active") ∧
    (∀ (data : List VenueRecord) (v : VenueRecord),
      v ∈ data → v.status = none → v ∉ loadVenuesFilter data) := by
  have key : ∀ (data : List VenueRecord) (v : VenueRecord),
      v ∈ loadVenuesFilter data ↔ v ∈ data ∧ v.status = some "active" := by
    intro data v
    rcases hv : v.status with _ | s <;>
      simp [loadVenuesFilter, List.mem_filter, hv]
  refine ⟨key, fun data v hmem hnone hfilter => ?_⟩
  have := (key data v).mp hfilter
  rw [hnone] at this
  exact Option.noConfusion this.2

/-- Claim C9, witness: a venue record without a `status` field is excluded
from the filtered list even though it is in the fetched data. -/
theorem c9_venue_selector_filters_active_witness :
    (⟨"v2", "tenant-1", "Venue Two", "2026-01-01", none⟩ : VenueRecord) ∉
      loadVenuesFilter
        [⟨"v1", "tenant-1", "Venue One", "2026-01-01", some "active"⟩,
         ⟨"v2", "tenant-1", "Venue Two", "2026-01-01", none⟩] :=
  c9_venue_selector_filters_active.2 _ _ (by simp) rfl

/-- Claim C5: submitting a cash correction, or rejecting an evidence
candidate, with a reason that trims to the empty string never issues the
network request: the handler's request list is empty. -/
theorem c5_blank_reason_issues_no_request :
    (∀ (tenantId selectedWeek : String) (s : CashPageState)
        (outcome : Except String SnapshotResult),
      jsTrim s.correctionReason = "" →
      (handleSubmitCorrection tenantId selectedWeek s outcome).2 = []) ∧
    (∀ (tenantId : String) (s : EvidencePageState)
        (rejectOutcome : Except String Unit)
        (candidatesOutcome pendingOutcome : Except String (List EvidenceCandidate)),
      jsTrim s.rejectReason = "" →
      (handleReject tenantId s rejectOutcome candidatesOutcome pendingOutcome).2 = []) := by
  constructor
  · intro t w s o h
    rcases htarget : s.correctionTarget with _ | target <;>
      simp [handleSubmitCorrection, htarget, h]
  · intro t s o₁ o₂ o₃ h
    rcases htarget : s.rejectTarget with _ | target <;>
      simp [handleReject, htarget, h]

/-- Claim C5, witness: a whitespace-only correction reason and an empty
rejection reason both block the request. -/
theorem c5_blank_reason_issues_no_request_witness :
    (handleSubmitCorrection "tenant-1" "2026-01-26"
      { sampleCashState with correctionReason := "   " }
      (.error "backend down")).2 = [] ∧
    (handleReject "tenant-1" { sampleEvidenceState with rejectReason := "" }
      (.ok ()) (.ok []) (.ok [])).2 = [] :=
  ⟨c5_blank_reason_issues_no_request.1 _ _ _ _ (by decide),
   c5_blank_reason_issues_no_request.2 _ _ _ _ _ (by decide)⟩

/-- Claim C3: a successful create of a Budget, LabourPlan or CashSnapshot
prepends exactly the backend's returned record to the in-memory list (for
cash, to both the full list and the week history), leaving every prior
entry present, unmodified and in order. -/
theorem c3_create_prepends_exactly_one :
    (∀ (tenantId venueId : String) (s : BudgetPageState)
        (result : BudgetMutationResult), venueId ≠ "" →
      (handleCreateBudget tenantId venueId s (.ok result)).1.budgets =
        result.budget :: s.budgets) ∧
    (∀ (tenantId venueId : String) (s : LabourPageState)
        (result : LabourMutationResult), venueId ≠ "" →
      (handleCreateLabourPlan tenantId venueId s (.ok result)).1.labourPlans =
        result.labourPlan :: s.labourPlans) ∧
    (∀ (tenantId venueId selectedWeek : String) (s : CashPageState)
        (result : SnapshotResult), venueId ≠ "" →
      (handleCreateSnapshot tenantId venueId selectedWeek s (.ok result)).1.snapshots =
        result.snapshot :: s.snapshots ∧
      (handleCreateSnapshot tenantId venueId selectedWeek s (.ok result)).1.weekHistory =
        result.snapshot :: s.weekHistory) := by
  refine ⟨fun t v s r hv => ?_, fun t v s r hv => ?_, fun t v w s r hv => ?_⟩ <;>
    simp [handleCreateBudget, handleCreateLabourPlan, handleCreateSnapshot, hv]

/-- Claim C3, witness: creating a budget, labour plan and snapshot against
the sample states prepends the returned record. -/
theorem c3_create_prepends_exactly_one_witness :
    (handleCreateBudget "tenant-1" "venue-1" sampleBudgetState
      (.ok ⟨sampleBudget, sampleBudgetVersion⟩)).1.budgets =
        sampleBudget :: sampleBudgetState.budgets ∧
    (handleCreateLabourPlan "tenant-1" "venue-1" sampleLabourState
      (.ok ⟨sampleLabourPlan, sampleLabourVersion⟩)).1.labourPlans =
        sampleLabourPlan :: sampleLabourState.labourPlans ∧
    (handleCreateSnapshot "tenant-1" "venue-1" "2026-01-26" sampleCashState
      (.ok ⟨sampleSnapshot⟩)).1.snapshots =
        sampleSnapshot :: sampleCashState.snapshots :=
  ⟨c3_create_prepends_exactly_one.1 _ _ _ _ (by decide),
   c3_create_prepends_exactly_one.2.1 _ _ _ _ (by decide),
   (c3_create_prepends_exactly_one.2.2 _ _ _ _ _ (by decide)).1⟩

/-- Claim C2, counterexample: with no budget selected, triggering the
confirm action on a draft budget's card still issues a `confirmBudget`
request — it is not a no-op. -/
theorem c2_confirm_without_selection_counterexample :
    sampleBudgetState.selectedBudget = none ∧
    (handleConfirmBudget "tenant-1" "venue-1" sampleBudgetState sampleBudget
        (.error "backend down") (.error "backend down")).2 =
      [ApiCall.confirmBudget "tenant-1" "budget-1" sampleBudget.payload
        currentUserId] :=
  ⟨rfl, rfl⟩

/-- Claim C2, amended: the Budget page's confirm handler has no selection
guard — triggering confirm on a card always issues exactly one
`confirmBudget` request carrying that card's budget id and payload,
whatever the selection state. -/
theorem c2_confirm_always_issues_request :
    ∀ (tenantId venueId : String) (s : BudgetPageState) (budget : Budget)
      (confirmOutcome : Except String BudgetMutationResult)
      (refetchOutcome : Except String (List Budget)),
      (handleConfirmBudget tenantId venueId s budget
          confirmOutcome refetchOutcome).2.head? =
        some (ApiCall.confirmBudget tenantId budget.id budget.payload
          currentUserId) := by
  intro t v s b o₁ o₂
  cases o₁ <;> cases o₂ <;> rfl

/-- Claim C1, counterexample: a single-record GET that fails with a non-404
status raises a message built from the HTTP status text only — the
backend's error text, although present in the response body, does not
appear in the failure. -/
theorem c1_error_text_counterexample :
    getBudget { status := 500, statusText := "Internal Server Error",
                errorField := some "budget validation failed",
                record := none } =
      .error "Failed to fetch budget: Internal Server Error" ∧
    jsIncludes "Failed to fetch budget: Internal Server Error"
      "budget validation failed" = false :=
  ⟨rfl, by decide⟩

/-- Claim C1, amended: every single-record fetch maps 404 to `null` and any
other non-2xx status to a failure carrying a fixed prefix plus the HTTP
status text; the backend's error body is never consulted. -/
theorem c1_single_record_fetch_semantics :
    (∀ r : FetchResponse MondayBrief, r.ok = false →
      (r.status = 404 → getMondayBrief r = .ok none) ∧
      (r.status ≠ 404 → getMondayBrief r =
        .error ("Failed to fetch Monday brief: " ++ r.statusText))) ∧
    (∀ r : FetchResponse Budget, r.ok = false →
      (r.status = 404 → getBudget r = .ok none) ∧
      (r.status ≠ 404 → getBudget r =
        .error ("Failed to fetch budget: " ++ r.statusText))) ∧
    (∀ r : FetchResponse Budget, r.ok = false →
      (r.status = 404 → getConfirmedBudget r = .ok none) ∧
      (r.status ≠ 404 → getConfirmedBudget r =
        .error ("Failed to fetch confirmed budget: " ++ r.statusText))) ∧
    (∀ r : FetchResponse LabourPlan, r.ok = false →
      (r.status = 404 → getLabourPlan r = .ok none) ∧
      (r.status ≠ 404 → getLabourPlan r =
        .error ("Failed to fetch labour plan: " ++ r.statusText))) ∧
    (∀ r : FetchResponse LabourPlan, r.ok = false →
      (r.status = 404 → getConfirmedLabourPlan r = .ok none) ∧
      (r.status ≠ 404 → getConfirmedLabourPlan r =
        .error ("Failed to fetch confirmed labour plan: " ++ r.statusText))) ∧
    (∀ r : FetchResponse CashSnapshot, r.ok = false →
      (r.status = 404 → getCashSnapshotByWeek r = .ok none) ∧
      (r.status ≠ 404 → getCashSnapshotByWeek r =
        .error ("Failed to fetch cash snapshot: " ++ r.statusText))) ∧
    (∀ r : FetchResponse Evidence, r.ok = false →
      (r.status = 404 → getEvidence r = .ok none) ∧
      (r.status ≠ 404 → getEvidence r =
        .error ("Failed to fetch evidence: " ++ r.statusText))) := by
  refine ⟨?_, ?_, ?_, ?_, ?_, ?_, ?_⟩ <;>
    (intro r h
     refine ⟨fun h404 => ?_, fun h404 => ?_⟩ <;>
       simp [getMondayBrief, getBudget, getConfirmedBudget, getLabourPlan,
             getConfirmedLabourPlan, getCashSnapshotByWeek, getEvidence,
             h, h404])

/-- Claim C1, witness: a 404 yields `null` and a 500 yields the status-text
failure, on concrete responses. -/
theorem c1_single_record_fetch_semantics_witness :
    getBudget { status := 404, statusText := "Not Found", errorField := none,
                record := none } = .ok none ∧
    getMondayBrief { status := 503, statusText := "Service Unavailable",
                     errorField := some "overloaded", record := none } =
      .error "Failed to fetch Monday brief: Service Unavailable" :=
  ⟨(c1_single_record_fetch_semantics.2.1 _ (by decide)).1 (by decide),
   (c1_single_record_fetch_semantics.1 _ (by decide)).2 (by decide)⟩

/-- Claim C6: `uploadEvidence` raises the distinct non-JSON diagnostic
(which carries the HTTP status) whenever the response's content-type header
is absent or does not include `application/json`, whatever the status. -/
theorem c6_upload_checks_content_type :
    ∀ r : UploadResponse,
      (∀ ct, r.contentType = some ct →
        jsIncludes ct "application/json" = false) →
      uploadEvidence r = .error (nonJsonUploadMessage r.status) := by
  intro r h
  rcases hct : r.contentType with _ | ct
  · simp [uploadEvidence, isJsonContentType, hct]
  · have hinc := h ct hct
    simp [uploadEvidence, isJsonContentType, hct, hinc]

/-- Claim C6, witness: an HTML error page from a proxy (502) and a missing
content-type on a 2xx response both produce the diagnostic. -/
theorem c6_upload_checks_content_type_witness :
    uploadEvidence { status := 502, statusText := "Bad Gateway",
                     contentType := some "text/html",
                     bodyText := "<html>gateway error</html>" } =
      .error (nonJsonUploadMessage 502) ∧
    uploadEvidence { status := 200, statusText := "OK",
                     contentType := none } =
      .error (nonJsonUploadMessage 200) :=
  ⟨c6_upload_checks_content_type _ (fun ct h => by
      cases Option.some.inj h; decide),
   c6_upload_checks_content_type _ (fun ct h => Option.noConfusion h)⟩

end Operyx

namespace Operyx

/-- Claim C7: `parseUKDate "27/01/2026"` is the UTC timestamp of
2026-01-27, and any input that does not split on `/` into exactly three
segments, or any of whose segments fails to parse as a number, yields
`null`. -/
theorem c7_parseUKDate_example_and_malformed :
    (parseUKDate "27/01/2026" = some 1769472000000 ∧
      utcCivilDate 1769472000000 = (2026, 1, 27)) ∧
    (∀ s : String, (jsSplit s '/').length ≠ 3 → parseUKDate s = none) ∧
    (∀ (s p₀ p₁ p₂ : String), jsSplit s '/' = [p₀, p₁, p₂] →
      jsParseInt p₀ = none ∨ jsParseInt p₁ = none ∨ jsParseInt p₂ = none →
      parseUKDate s = none) := by
  refine ⟨⟨by decide, by decide⟩, ?_, ?_⟩
  · intro s h
    rcases hsplit : jsSplit s '/' with _ | ⟨a, _ | ⟨b, _ | ⟨c, _ | ⟨d, rest⟩⟩⟩⟩
    · simp [parseUKDate, hsplit]
    · simp [parseUKDate, hsplit]
    · simp [parseUKDate, hsplit]
    · exact absurd (by rw [hsplit]; rfl) h
    · simp [parseUKDate, hsplit]
  · intro s p₀ p₁ p₂ hsplit hbad
    rcases h₀ : jsParseInt p₀ with _ | d
    · simp [parseUKDate, hsplit, h₀]
    · rcases h₁ : jsParseInt p₁ with _ | m
      · simp [parseUKDate, hsplit, h₀, h₁]
      · rcases h₂ : jsParseInt p₂ with _ | y
        · simp [parseUKDate, hsplit, h₀, h₁, h₂]
        · rcases hbad with h | h | h <;> simp_all

/-- Claim C7, witness: a dash-separated date and non-numeric segments both
yield `null`. -/
theorem c7_parseUKDate_example_and_malformed_witness :
    parseUKDate "2026-01-27" = none ∧ parseUKDate "aa/bb/cc" = none :=
  ⟨c7_parseUKDate_example_and_malformed.2.1 "2026-01-27" (by decide),
   c7_parseUKDate_example_and_malformed.2.2 "aa/bb/cc" "aa" "bb" "cc"
     (by decide) (Or.inl (by decide))⟩

/-- Claim C10: `parseUKDate` performs no range validation — any `a/b/c`
whose segments parse as integers yields (range permitting) a non-null date,
with out-of-range components rolled over through the calendar;
`parseUKDate "32/01/2026"` is the UTC timestamp of 2026-02-01. -/
theorem c10_no_range_validation_rollover :
    (∀ (s p₀ p₁ p₂ : String) (d m y : Int),
      jsSplit s '/' = [p₀, p₁, p₂] →
      jsParseInt p₀ = some d → jsParseInt p₁ = some m → jsParseInt p₂ = some y →
      (utcTimeValue y (m - 1) d).natAbs ≤ maxTimeValue.natAbs →
      parseUKDate s = some (utcTimeValue y (m - 1) d)) ∧
    (parseUKDate "32/01/2026" = some 1769904000000 ∧
      utcCivilDate 1769904000000 = (2026, 2, 1)) := by
  constructor
  · intro s p₀ p₁ p₂ d m y hsplit h₀ h₁ h₂ hrange
    simp [parseUKDate, hsplit, h₀, h₁, h₂, dateUTC, hrange]
  · exact ⟨by decide, by decide⟩

/-- Claim C10, witness: `"31/04/2026"` (April has 30 days) still parses,
rolling over to the next month's first day. -/
theorem c10_no_range_validation_rollover_witness :
    parseUKDate "31/04/2026" = some (utcTimeValue 2026 (4 - 1) 31) ∧
    utcCivilDate (utcTimeValue 2026 (4 - 1) 31) = (2026, 5, 1) :=
  ⟨c10_no_range_validation_rollover.1 "31/04/2026" "31" "04" "2026" 31 4 2026
      (by decide) (by decide) (by decide) (by decide) (by decide),
   by decide⟩

end Operyx

namespace Operyx

/-- Claim C4: when the write request of any workflow-page handler fails, the
page's entity lists — indeed its entire state — are exactly as before the
attempt, except that the error message is set (each handler is invoked with
`submitting = false`, since the triggering control is disabled while a
submission is in flight). -/
theorem c4_failed_write_preserves_state :
    (∀ (t v : String) (s : BudgetPageState) (msg : String),
      s.submitting = false → v ≠ "" →
      (handleCreateBudget t v s (.error msg)).1 = { s with error := some msg }) ∧
    (∀ (t v : String) (s : BudgetPageState) (b : Budget) (msg : String)
        (refetchOutcome : Except String (List Budget)),
      s.submitting = false →
      (handleConfirmBudget t v s b (.error msg) refetchOutcome).1 =
        { s with error := some msg }) ∧
    (∀ (t v : String) (s : LabourPageState) (msg : String),
      s.submitting = false → v ≠ "" →
      (handleCreateLabourPlan t v s (.error msg)).1 = { s with error := some msg }) ∧
    (∀ (t v : String) (s : LabourPageState) (p : LabourPlan) (msg : String)
        (refetchOutcome : Except String (List LabourPlan)),
      s.submitting = false →
      (handleConfirmLabourPlan t v s p (.error msg) refetchOutcome).1 =
        { s with error := some msg }) ∧
    (∀ (t v w : String) (s : CashPageState) (msg : String),
      s.submitting = false → v ≠ "" →
      (handleCreateSnapshot t v w s (.error msg)).1 = { s with error := some msg }) ∧
    (∀ (t w : String) (s : CashPageState) (target : CashSnapshot) (msg : String),
      s.submitting = false → s.correctionTarget = some target →
      jsTrim s.correctionReason ≠ "" →
      (handleSubmitCorrection t w s (.error msg)).1 = { s with error := some msg }) ∧
    (∀ (t v : String) (s : EvidencePageState) (f : JSFile) (msg : String),
      s.submitting = false → v ≠ "" → s.selectedFile = some f →
      (handleUpload t v s (.error msg)).1 = { s with error := some msg }) ∧
    (∀ (t : String) (s : EvidencePageState) (c : EvidenceCandidate) (msg : String)
        (candidatesOutcome pendingOutcome : Except String (List EvidenceCandidate)),
      s.submitting = false →
      (handleConfirm t s c (.error msg) candidatesOutcome pendingOutcome).1 =
        { s with error := some msg }) ∧
    (∀ (t : String) (s : EvidencePageState) (target : EvidenceCandidate) (msg : String)
        (candidatesOutcome pendingOutcome : Except String (List EvidenceCandidate)),
      s.submitting = false → s.rejectTarget = some target →
      jsTrim s.rejectReason ≠ "" →
      (handleReject t s (.error msg) candidatesOutcome pendingOutcome).1 =
        { s with error := some msg }) := by
  refine ⟨fun t v s msg h hv => ?_,
          fun t v s b msg o h => ?_,
          fun t v s msg h hv => ?_,
          fun t v s p msg o h => ?_,
          fun t v w s msg h hv => ?_,
          fun t w s target msg h htarget hreason => ?_,
          fun t v s f msg h hv hf => ?_,
          fun t s c msg o₂ o₃ h => ?_,
          fun t s target msg o₂ o₃ h htarget hreason => ?_⟩ <;>
    cases s <;>
    simp_all [handleCreateBudget, handleConfirmBudget, handleCreateLabourPlan,
      handleConfirmLabourPlan, handleCreateSnapshot, handleSubmitCorrection,
      handleUpload, handleConfirm, handleReject]

end Operyx

namespace Operyx

/-- Claim C4, witness: a failed create/confirm/correct/upload/candidate
write against each sample page state changes only the error message. -/
theorem c4_failed_write_preserves_state_witness :
    (handleCreateBudget "tenant-1" "venue-1" sampleBudgetState
        (.error "backend down")).1 =
      { sampleBudgetState with error := some "backend down" } ∧
    (handleConfirmBudget "tenant-1" "venue-1" sampleBudgetState sampleBudget
        (.error "backend down") (.ok [])).1 =
      { sampleBudgetState with error := some "backend down" } ∧
    (handleCreateLabourPlan "tenant-1" "venue-1" sampleLabourState
        (.error "backend down")).1 =
      { sampleLabourState with error := some "backend down" } ∧
    (handleConfirmLabourPlan "tenant-1" "venue-1" sampleLabourState
        sampleLabourPlan (.error "backend down") (.ok [])).1 =
      { sampleLabourState with error := some "backend down" } ∧
    (handleCreateSnapshot "tenant-1" "venue-1" "2026-01-26" sampleCashState
        (.error "backend down")).1 =
      { sampleCashState with error := some "backend down" } ∧
    (handleSubmitCorrection "tenant-1" "2026-01-26" sampleCashState
        (.error "backend down")).1 =
      { sampleCashState with error := some "backend down" } ∧
    (handleUpload "tenant-1" "venue-1" sampleEvidenceState
        (.error "backend down")).1 =
      { sampleEvidenceState with error := some "backend down" } ∧
    (handleConfirm "tenant-1" sampleEvidenceState sampleCandidate
        (.error "backend down") (.ok []) (.ok [])).1 =
      { sampleEvidenceState with error := some "backend down" } ∧
    (handleReject "tenant-1" sampleEvidenceState (.error "backend down")
        (.ok []) (.ok [])).1 =
      { sampleEvidenceState with error := some "backend down" } :=
  ⟨c4_failed_write_preserves_state.1 _ _ _ _ rfl (by decide),
   c4_failed_write_preserves_state.2.1 _ _ _ _ _ _ rfl,
   c4_failed_write_preserves_state.2.2.1 _ _ _ _ rfl (by decide),
   c4_failed_write_preserves_state.2.2.2.1 _ _ _ _ _ _ rfl,
   c4_failed_write_preserves_state.2.2.2.2.1 _ _ _ _ _ rfl (by decide),
   c4_failed_write_preserves_state.2.2.2.2.2.1 _ _ _ _ _ rfl rfl (by decide),
   c4_failed_write_preserves_state.2.2.2.2.2.2.1 _ _ _ _ _ rfl (by decide) rfl,
   c4_failed_write_preserves_state.2.2.2.2.2.2.2.1 _ _ _ _ _ _ rfl,
   c4_failed_write_preserves_state.2.2.2.2.2.2.2.2 _ _ _ _ _ _ rfl rfl (by decide)⟩

end Operyx

namespace Operyx

/-- Helper: the character of a digit below ten satisfies `Char.isDigit`. -/
theorem digitChar_isDigit (k : Nat) (h : k ≤ 9) : (digitChar k).isDigit = true := by
  interval_cases k <;> decide

/-- Helper: with enough fuel, digit extraction yields a non-empty list of
digit characters. -/
theorem natDigitsRevFuel_digits :
    ∀ (fuel n : Nat), n < fuel →
      natDigitsRevFuel fuel n ≠ [] ∧
        (natDigitsRevFuel fuel n).all Char.isDigit = true := by
  intro fuel
  induction fuel with
  | zero => intro n h; omega
  | succ fuel ih =>
    intro n h
    by_cases h10 : n < 10
    · simp [natDigitsRevFuel, h10, digitChar_isDigit n (by omega)]
    · have hrec := ih (n / 10) (by omega)
      simp [natDigitsRevFuel, h10, digitChar_isDigit (n % 10) (by omega),
        hrec.1, hrec.2]

/-- Helper: the digit list of a natural number is non-empty and all
digits. -/
theorem natDigitsRev_digits (n : Nat) :
    natDigitsRev n ≠ [] ∧ (natDigitsRev n).all Char.isDigit = true :=
  natDigitsRevFuel_digits (n + 1) n (by omega)

/-- Helper: grouping a non-empty digit list passes the comma-grouping
check. -/
theorem ukGroupedRevCheck_groupRev :
    ∀ l : List Char, l ≠ [] → l.all Char.isDigit = true →
      ukGroupedRevCheck (groupRev l) = true
  | [], h, _ => absurd rfl h
  | [a], _, h => by simp_all [groupRev, ukGroupedRevCheck]
  | [a, b], _, h => by simp_all [groupRev, ukGroupedRevCheck]
  | [a, b, c], _, h => by simp_all [groupRev, ukGroupedRevCheck]
  | a :: b :: c :: d :: rest, _, h => by
    have ih := ukGroupedRevCheck_groupRev (d :: rest) (by simp) (by simp_all)
    simp_all [groupRev, ukGroupedRevCheck]

/-- Helper: every character of a grouped digit list is a digit or a
comma. -/
theorem groupRev_digit_or_comma :
    ∀ l : List Char, l.all Char.isDigit = true →
      ∀ c ∈ groupRev l, c.isDigit = true ∨ c = ','
  | [], _, c, hc => by simp [groupRev] at hc
  | [a], h, c, hc => by
    simp [groupRev] at hc
    subst hc; exact Or.inl (by simp_all)
  | [a, b], h, c, hc => by
    simp [groupRev] at hc
    rcases hc with hc | hc <;> subst hc <;> simp_all
  | [a, b, c'], h, c, hc => by
    simp [groupRev] at hc
    rcases hc with hc | hc | hc <;> subst hc <;> simp_all
  | a :: b :: c' :: d :: rest, h, c, hc => by
    simp only [groupRev, List.mem_cons] at hc
    simp only [List.all_cons, Bool.and_eq_true] at h
    rcases hc with hc | hc | hc | hc | hc
    · exact Or.inl (hc ▸ h.1)
    · exact Or.inl (hc ▸ h.2.1)
    · exact Or.inl (hc ▸ h.2.2.1)
    · exact Or.inr hc
    · exact groupRev_digit_or_comma (d :: rest) (by simp_all) c hc

end Operyx

namespace Operyx

/-- Helper: a grouped integer part followed by a point and two digit
characters passes the amount-shape check. -/
theorem amountShape_append (g : List Char) (t o : Nat)
    (ht : t ≤ 9) (ho : o ≤ 9) (hg : ukGroupedRevCheck g = true) :
    amountShape (g.reverse ++ '.' :: [digitChar t, digitChar o]) = true := by
  unfold amountShape
  rw [List.reverse_append, List.reverse_reverse]
  simp [digitChar_isDigit t ht, digitChar_isDigit o ho, hg]

/-- Helper: the currency-shape check on a string `£-<body>`. -/
theorem currencyShape_neg (rest : List Char) (s : String)
    (hs : s.data = '£' :: '-' :: rest) :
    currencyShape s = amountShape rest := by
  simp [currencyShape, hs]

/-- Helper: the currency-shape check on a string `£<body>` whose body does
not start with a minus sign. -/
theorem currencyShape_pos (e : Char) (rest : List Char) (s : String)
    (hs : s.data = '£' :: e :: rest) (he : e ≠ '-') :
    currencyShape s = amountShape (e :: rest) := by
  simp [currencyShape, hs, he]

/-- Claim C8: `formatCurrency` of every finite value is `£` followed by an
optional minus sign, a comma-grouped (UK thousands) integer part, and
exactly two decimal places; every NaN-producing input yields `£0.00`; and
concrete checks, including the spec's `£1,000.00` scenario value. -/
theorem c8_formatCurrency_shape :
    (∀ q : ℚ, currencyShape (formatCurrency (JSValue.num (JSNum.finite q))) = true) ∧
    (∀ v : JSValue, jsToNumber v = JSNum.nan → formatCurrency v = "£0.00") ∧
    formatCurrency (JSValue.str "not a number") = "£0.00" ∧
    formatCurrency (JSValue.num (JSNum.finite 1250)) = "£1,250.00" ∧
    formatCurrency (JSValue.num (JSNum.finite 1000)) = "£1,000.00" ∧
    formatCurrency (JSValue.num (JSNum.finite (mkRat (-1234567891) 1000))) =
      "£-1,234,567.89" := by
  refine ⟨?_, ?_, by decide, by decide, by decide, by decide⟩
  · intro q
    have h1 : formatCurrency (JSValue.num (JSNum.finite q)) =
        "£" ++ String.mk (enGBChars q) := by
      simp [formatCurrency, jsToNumber, toLocaleStringEnGB2]
    have hdata : ("£" ++ String.mk (enGBChars q)).data = '£' :: enGBChars q := by
      rw [String.data_append]; rfl
    have hdig := natDigitsRev_digits (roundedHundredths q / 100)
    have hcheck := ukGroupedRevCheck_groupRev _ hdig.1 hdig.2
    have htens : roundedHundredths q % 100 / 10 ≤ 9 := by omega
    have hones : roundedHundredths q % 10 ≤ 9 := by omega
    rw [h1]
    by_cases hq : q < 0
    · have he : enGBChars q =
          '-' :: ((groupRev (natDigitsRev (roundedHundredths q / 100))).reverse ++
            '.' :: [digitChar (roundedHundredths q % 100 / 10),
                    digitChar (roundedHundredths q % 10)]) := by
        simp [enGBChars, hq]
      rw [currencyShape_neg _ _ (by rw [hdata, he])]
      exact amountShape_append _ _ _ htens hones hcheck
    · have hgne : groupRev (natDigitsRev (roundedHundredths q / 100)) ≠ [] := by
        intro hnil
        rw [hnil] at hcheck
        simp [ukGroupedRevCheck] at hcheck
      obtain ⟨e, te, hge⟩ :=
        List.exists_cons_of_ne_nil
          (fun hnil => hgne (by simpa using congrArg List.reverse hnil) :
            (groupRev (natDigitsRev (roundedHundredths q / 100))).reverse ≠ [])
      have hmem : e ∈ groupRev (natDigitsRev (roundedHundredths q / 100)) :=
        List.mem_reverse.mp (hge ▸ List.mem_cons_self e te)
      have hne : e ≠ '-' := by
        rcases groupRev_digit_or_comma _ hdig.2 e hmem with h | h
        · intro hcontra; rw [hcontra] at h; exact absurd h (by decide)
        · intro hcontra; rw [hcontra] at h; exact absurd h (by decide)
      have he : enGBChars q =
          e :: (te ++ '.' :: [digitChar (roundedHundredths q % 100 / 10),
                              digitChar (roundedHundredths q % 10)]) := by
        simp [enGBChars, hq, hge]
      rw [currencyShape_pos _ _ _ (by rw [hdata, he]) hne]
      have hassoc : e :: (te ++ '.' :: [digitChar (roundedHundredths q % 100 / 10),
            digitChar (roundedHundredths q % 10)]) =
          (groupRev (natDigitsRev (roundedHundredths q / 100))).reverse ++
            '.' :: [digitChar (roundedHundredths q % 100 / 10),
                    digitChar (roundedHundredths q % 10)] := by
        rw [hge]; rfl
      rw [hassoc]
      exact amountShape_append _ _ _ htens hones hcheck
  · intro v h
    simp [formatCurrency, h]

end Operyx

namespace Operyx

/-- Claim C8, witness: the shape check holds at `1/3` (which rounds to
`£0.33`) and a NaN input yields `£0.00`. -/
theorem c8_formatCurrency_shape_witness :
    currencyShape (formatCurrency (JSValue.num (JSNum.finite (mkRat 1 3)))) = true ∧
    formatCurrency (JSValue.num JSNum.nan) = "£0.00" :=
  ⟨c8_formatCurrency_shape.1 (mkRat 1 3),
   c8_formatCurrency_shape.2.1 (JSValue.num JSNum.nan) rfl⟩

end Operyx
